import Mathlib

/-!
Verification of the analysis pipeline of the django_analysis repository.

The repository filters a CSV of Django bug-fix records (src/filtered.py) and
builds monthly aggregates, a descriptive-statistics table and correlation
coefficients (src/visualization_v2.py).  This file gives a shallow embedding
of those computations over Lean lists and rationals and proves properties of
them.

Modelling conventions:
  * a pandas DataFrame is a Lean list of records (rows, in order);
  * a nullable CSV cell (pandas NaN) is an Option;
  * Python floats are modelled exactly by the rationals;
  * a Python exception is modelled by Except.error;
  * a pandas statistic that evaluates to NaN is modelled by none.
-/

set_option maxRecDepth 4000

/-! ## Filter stage: src/filtered.py -/

/-- One row of the raw CSV read by filter_django_bugs.  Only the columns the
filter inspects are modelled; the remaining columns travel with the record
unchanged (a record is an immutable value here). -/
structure RawRecord where
  issue_id : Option Int
  title : Option String
  fixer_login : Option String
  comments_count : Option Rat
  duration_days : Option Rat
  deriving DecidableEq, Repr

/-- First sentinel token of filter rule 1 (line 31 of filtered.py). -/
def testMarker1 : String := "#99999"

/-- Second sentinel token of filter rule 1 (line 31 of filtered.py). -/
def testMarker2 : String := "my-feature"

/-- Automation tag of filter rule 2 (line 35 of filtered.py). -/
def stitchTag : String := "[Stitch Remote SWE]"

/-- Case-insensitive substring test, modelling pandas
str.contains(..., case=False). -/
def strContainsCI (s pat : String) : Bool :=
  decide (pat.toLower.toList <:+: s.toLower.toList)

/-- Rule 1 mask (line 31): keep rows whose title does NOT contain one of
the test-ticket markers; a missing title gives contains = False (na=False),
hence the row is kept by this rule. -/
def test_ticket_filter (r : RawRecord) : Bool :=
  ! (match r.title with
     | none => false
     | some t => strContainsCI t testMarker1 || strContainsCI t testMarker2)

/-- Rule 2 mask (line 35): keep rows whose title does not start with the
automation tag (na=False keeps rows with a missing title). -/
def stitch_filter (r : RawRecord) : Bool :=
  ! (match r.title with
     | none => false
     | some t => t.startsWith stitchTag)

/-- Rule 3 mask (line 39): keep rows with comments_count > 0; NaN > 0 is
False in pandas, so a missing count is excluded. -/
def comments_filter (r : RawRecord) : Bool :=
  match r.comments_count with
  | none => false
  | some c => decide (0 < c)

/-- Rule 4 mask (line 44): keep rows where issue_id, title and fixer_login
are all present. -/
def missing_data_filter (r : RawRecord) : Bool :=
  r.issue_id.isSome && r.title.isSome && r.fixer_login.isSome

/-- Rows retained by all four rules (line 49, df[f1 & f2 & f3 & f4]). -/
def filtered_df (df : List RawRecord) : List RawRecord :=
  df.filter (fun r => test_ticket_filter r && stitch_filter r &&
    comments_filter r && missing_data_filter r)

/-- Rows removed by rule 1 (line 32): len(df) - len(df[f1]). -/
def removed_test_tickets (df : List RawRecord) : Nat :=
  df.length - (df.filter test_ticket_filter).length

/-- Rows newly removed by rule 2 (line 36): len(df[f1]) - len(df[f1 & f2]). -/
def removed_stitch (df : List RawRecord) : Nat :=
  (df.filter test_ticket_filter).length -
    (df.filter (fun r => test_ticket_filter r && stitch_filter r)).length

/-- Rows newly removed by rule 3 (lines 40-41). -/
def removed_zero_comments (df : List RawRecord) : Nat :=
  (df.filter (fun r => test_ticket_filter r && stitch_filter r)).length -
    (df.filter (fun r => test_ticket_filter r && stitch_filter r &&
      comments_filter r)).length

/-- Rows newly removed by rule 4 (lines 45-46). -/
def removed_missing (df : List RawRecord) : Nat :=
  (df.filter (fun r => test_ticket_filter r && stitch_filter r &&
    comments_filter r)).length -
    (df.filter (fun r => test_ticket_filter r && stitch_filter r &&
      comments_filter r && missing_data_filter r)).length

/-- The statistics block printed by filter_django_bugs (lines 52-63). -/
structure FilterReport where
  original_count : Nat
  filtered_count : Nat
  removed_test_tickets : Nat
  removed_stitch : Nat
  removed_zero_comments : Nat
  removed_missing : Nat
  removed_total : Nat
  removal_rate_percent : Rat
  deriving DecidableEq, Repr

/-- Message of the Python exception raised at line 63 when
original_count = 0. -/
def zeroDivisionMsg : String := "ZeroDivisionError: division by zero"

/-- Shallow embedding of filter_django_bugs (filtered.py lines 26-81),
abstracting file I/O away: the input list stands for the parsed CSV and the
result carries the retained rows together with the printed statistics.
Line 63 evaluates (removed_total / original_count) * 100, which raises
ZeroDivisionError when the input is empty; this is modelled by
Except.error. -/
def filter_django_bugs (df : List RawRecord) :
    Except String (List RawRecord × FilterReport) :=
  let original_count := df.length
  let filtered := filtered_df df
  let removed_total := original_count - filtered.length
  if original_count = 0 then Except.error zeroDivisionMsg
  else Except.ok (filtered,
    { original_count := original_count
      filtered_count := filtered.length
      removed_test_tickets := removed_test_tickets df
      removed_stitch := removed_stitch df
      removed_zero_comments := removed_zero_comments df
      removed_missing := removed_missing df
      removed_total := removed_total
      removal_rate_percent := ((removed_total : Rat) / (original_count : Rat)) * 100 })

/-! ### Helper lemmas about the filter masks -/

lemma length_filter_and_le (p q : RawRecord → Bool) (l : List RawRecord) :
    (l.filter (fun a => p a && q a)).length ≤ (l.filter p).length := by
  induction l with
  | nil => simp
  | cons a t ih =>
      rcases hp : p a <;> rcases hq : q a <;>
        simp [List.filter_cons, hp, hq] <;> omega

/-- C4: for every input dataset, the number of retained records plus the sum
of the four cumulative per-rule removal counts equals the number of input
records (the counts at lines 32-46 telescope against line 49). -/
theorem filter_counts_partition_input (df : List RawRecord) :
    (filtered_df df).length +
      (removed_test_tickets df + removed_stitch df +
       removed_zero_comments df + removed_missing df) = df.length := by
  unfold filtered_df removed_test_tickets removed_stitch
    removed_zero_comments removed_missing
  have h1 : (df.filter test_ticket_filter).length ≤ df.length :=
    List.length_filter_le _ _
  have h2 := length_filter_and_le test_ticket_filter stitch_filter df
  have h3 := length_filter_and_le
    (fun r => test_ticket_filter r && stitch_filter r) comments_filter df
  have h4 := length_filter_and_le
    (fun r => test_ticket_filter r && stitch_filter r && comments_filter r)
    missing_data_filter df
  simp only [Bool.and_assoc] at *
  omega

/-- C5: the filter is idempotent: on an already-filtered dataset every
per-rule removal count is zero and the retained set is unchanged. -/
theorem filter_idempotent (df : List RawRecord) :
    removed_test_tickets (filtered_df df) = 0 ∧
    removed_stitch (filtered_df df) = 0 ∧
    removed_zero_comments (filtered_df df) = 0 ∧
    removed_missing (filtered_df df) = 0 ∧
    filtered_df (filtered_df df) = filtered_df df := by
  have hmem : ∀ r ∈ filtered_df df,
      test_ticket_filter r = true ∧ stitch_filter r = true ∧
      comments_filter r = true ∧ missing_data_filter r = true := by
    intro r hr
    have := (List.mem_filter.mp hr).2
    simp only [Bool.and_eq_true] at this
    exact ⟨this.1.1.1, this.1.1.2, this.1.2, this.2⟩
  have e1 : (filtered_df df).filter test_ticket_filter = filtered_df df :=
    List.filter_eq_self.mpr (fun r hr => (hmem r hr).1)
  have e2 : (filtered_df df).filter
      (fun r => test_ticket_filter r && stitch_filter r) = filtered_df df :=
    List.filter_eq_self.mpr (fun r hr => by
      have h := hmem r hr; simp [h.1, h.2.1])
  have e3 : (filtered_df df).filter
      (fun r => test_ticket_filter r && stitch_filter r && comments_filter r)
      = filtered_df df :=
    List.filter_eq_self.mpr (fun r hr => by
      have h := hmem r hr; simp [h.1, h.2.1, h.2.2.1])
  have e4 : (filtered_df df).filter
      (fun r => test_ticket_filter r && stitch_filter r && comments_filter r
        && missing_data_filter r) = filtered_df df :=
    List.filter_eq_self.mpr (fun r hr => by
      have h := hmem r hr; simp [h.1, h.2.1, h.2.2.1, h.2.2.2])
  refine ⟨?_, ?_, ?_, ?_, ?_⟩
  · unfold removed_test_tickets; rw [e1]; omega
  · unfold removed_stitch; rw [e1, e2]; omega
  · unfold removed_zero_comments; rw [e2, e3]; omega
  · unfold removed_missing; rw [e3, e4]; omega
  · exact e4

/-- C10: the filter preserves input order: the retained records form a
sublist (subsequence) of the input — no reordering, duplication or
modification of retained records. -/
theorem filter_preserves_order (df : List RawRecord) :
    (filtered_df df).Sublist df :=
  List.filter_sublist df

/-- C1: on an empty input the four per-rule removal counts are all zero and
the retained set is empty, but filter_django_bugs itself aborts with
ZeroDivisionError at line 63 because (removed_total / original_count) * 100
divides by original_count = 0 without a guard. -/
theorem filter_empty_input_divides_by_zero :
    filter_django_bugs [] = Except.error zeroDivisionMsg ∧
    filtered_df [] = [] ∧
    removed_test_tickets [] = 0 ∧ removed_stitch [] = 0 ∧
    removed_zero_comments [] = 0 ∧ removed_missing [] = 0 := by
  refine ⟨rfl, rfl, rfl, rfl, rfl, rfl⟩

/-! ## Visualization stage: src/visualization_v2.py -/

/-- One row of the filtered CSV after load_data (visualization_v2.py lines
78-97): rows with a missing created_at, duration_days, comments_count or
member type have been dropped, and is_core_member has been mapped through
the dictionary 1 -> Core Member, 0 -> Community Contributor, so it is a
Bool here.  created_at is kept as its calendar (year, month) truncation,
which is all the pipeline reads. -/
structure VizRecord where
  issue_id : Int
  year : Nat
  month : Nat
  duration_days : Rat
  comments_count : Rat
  is_core_member : Bool
  deriving DecidableEq, Repr

/-- Group label of core members (load_data line 89). -/
def coreLabel : String := "Core Member"

/-- Group label of community contributors (load_data line 89). -/
def commLabel : String := "Community Contributor"

/-- Label of the synthetic overall row (build_table1 line 225). -/
def overallLabel : String := "Overall"

/-- The Member Type column derived by load_data (line 89). -/
def memberType (r : VizRecord) : String :=
  if r.is_core_member then coreLabel else commLabel

/-- Insert into a list sorted by the boolean order le. -/
def insertLe (le : α → α → Bool) (a : α) : List α → List α
  | [] => [a]
  | b :: t => if le a b then a :: b :: t else b :: insertLe le a t

/-- Insertion sort by the boolean order le; models the ascending key order
pandas groupby produces. -/
def sortLe (le : α → α → Bool) : List α → List α
  | [] => []
  | a :: t => insertLe le a (sortLe le t)

/-- Lexicographic order on strings (pandas sorts group labels this way). -/
def strLe (a b : String) : Bool := (compare a b).isLE

/-- Mean of a list of rationals; none models the NaN pandas returns for an
empty series. -/
def meanQ (l : List Rat) : Option Rat :=
  if l.isEmpty then none else some (l.sum / (l.length : Rat))

/-- Mean as a total function, used for groupby aggregates whose groups are
nonempty by construction (the empty case, 0 / 0 = 0, is never reached). -/
def meanTotal (l : List Rat) : Rat := l.sum / (l.length : Rat)

/-- Linear-interpolation quantile (numpy/pandas default method): position
q * (n - 1) between the closest sorted ranks; none models NaN on an empty
series.  Series.median() equals the q = 1/2 case. -/
def quantQ (q : Rat) (l : List Rat) : Option Rat :=
  if l.isEmpty then none else
    let s := sortLe (fun a b => decide (a ≤ b)) l
    let n := s.length
    let pos : Rat := q * ((n : Rat) - 1)
    let i : Nat := (Int.floor pos).toNat
    let frac : Rat := pos - ((Int.floor pos : Int) : Rat)
    let xi := s.getD i 0
    let xj := s.getD (min (i + 1) (n - 1)) 0
    some (xi + frac * (xj - xi))

/-- Round a rational to the nearest integer, ties to even, as float rounding in Python does. -/
def rintHalfEven (x : Rat) : Int :=
  let f := Int.floor x
  let r := x - (f : Rat)
  if r < 1/2 then f
  else if 1/2 < r then f + 1
  else if f % 2 = 0 then f else f + 1

/-- Round to 2 decimal digits (build_table1 line 232, .round(2)). -/
def round2 (x : Rat) : Rat := ((rintHalfEven (x * 100) : Int) : Rat) / 100

/-- One row of Table 1 (build_table1 lines 210-221); the statistics are
Options because pandas produces NaN for an empty frame. -/
structure SummaryRow where
  member_type : String
  N : Nat
  duration_mean : Option Rat
  duration_median : Option Rat
  duration_q1 : Option Rat
  duration_q3 : Option Rat
  comments_mean : Option Rat
  comments_median : Option Rat
  comments_q1 : Option Rat
  comments_q3 : Option Rat
  deriving DecidableEq, Repr

/-- stats_block (build_table1 lines 210-221) evaluated on the group g,
labelled with the groupby key (or the literal Overall label). -/
def stats_block (label : String) (g : List VizRecord) : SummaryRow :=
  { member_type := label
    N := g.length
    duration_mean := meanQ (g.map (fun r => r.duration_days))
    duration_median := quantQ (1/2) (g.map (fun r => r.duration_days))
    duration_q1 := quantQ (1/4) (g.map (fun r => r.duration_days))
    duration_q3 := quantQ (3/4) (g.map (fun r => r.duration_days))
    comments_mean := meanQ (g.map (fun r => r.comments_count))
    comments_median := quantQ (1/2) (g.map (fun r => r.comments_count))
    comments_q1 := quantQ (1/4) (g.map (fun r => r.comments_count))
    comments_q3 := quantQ (3/4) (g.map (fun r => r.comments_count)) }

/-- The rounding loop of build_table1 (lines 230-233): every column except
Member Type and N is rounded to 2 decimals; NaN stays NaN. -/
def roundRow (row : SummaryRow) : SummaryRow :=
  { row with
    duration_mean := row.duration_mean.map round2
    duration_median := row.duration_median.map round2
    duration_q1 := row.duration_q1.map round2
    duration_q3 := row.duration_q3.map round2
    comments_mean := row.comments_mean.map round2
    comments_median := row.comments_median.map round2
    comments_q1 := row.comments_q1.map round2
    comments_q3 := row.comments_q3.map round2 }

/-- build_table1 (visualization_v2.py lines 208-235): stats_block per
Member Type group (groupby: one row per label present in the data, labels
in ascending order), then the Overall row over the whole input, then the
rounding loop.  -/
def build_table1 (df : List VizRecord) : List SummaryRow :=
  let labels := sortLe strLe (df.map memberType).dedup
  let group_table := labels.map
    (fun l => stats_block l (df.filter (fun r => memberType r = l)))
  let overall := stats_block overallLabel df
  (group_table ++ [overall]).map roundRow

/-- N of the row of tbl carrying the given label; 0 when no such row
exists (pandas groupby emits no row for an absent class). -/
def rowN (tbl : List SummaryRow) (label : String) : Nat :=
  ((tbl.find? (fun row => row.member_type = label)).map
    (fun row => row.N)).getD 0

/-- One row of the monthly aggregation (compute_monthly_stats lines
106-114).  Groups are nonempty by construction, so the means are total. -/
structure MonthlyRow where
  month_year : Nat × Nat
  total_fixes : Nat
  core_fixes : Nat
  mean_duration : Rat
  median_duration : Rat
  mean_comments : Rat
  core_ratio : Rat
  deriving DecidableEq, Repr

/-- Ascending order on (year, month) keys. -/
def monthKeyLe (a b : Nat × Nat) : Bool :=
  decide (a.1 < b.1 ∨ (a.1 = b.1 ∧ a.2 ≤ b.2))

/-- The (year, month) groupby key of a record (line 104). -/
def monthKey (r : VizRecord) : Nat × Nat := (r.year, r.month)

/-- The aggregate row of one month group (lines 106-114). -/
def mkMonthlyRow (k : Nat × Nat) (g : List VizRecord) : MonthlyRow :=
  { month_year := k
    total_fixes := g.length
    core_fixes := g.countP (fun r => r.is_core_member)
    mean_duration := meanTotal (g.map (fun r => r.duration_days))
    median_duration := (quantQ (1/2) (g.map (fun r => r.duration_days))).getD 0
    mean_comments := meanTotal (g.map (fun r => r.comments_count))
    core_ratio := ((g.countP (fun r => r.is_core_member) : Nat) : Rat) /
      ((g.length : Nat) : Rat) }

/-- The monthly table before the low-sample filter (lines 106-114): one row
per month key present in the data, keys ascending. -/
def monthlyRows (df : List VizRecord) : List MonthlyRow :=
  (sortLe monthKeyLe (df.map monthKey).dedup).map
    (fun k => mkMonthlyRow k (df.filter (fun r => monthKey r = k)))

/-- compute_monthly_stats (lines 101-123).  The Python guard is
"if min_fixes_per_month and min_fixes_per_month > 1", i.e. the threshold
must be nonzero (truthy) and greater than 1 for the filter to run; the
filter keeps rows with total_fixes >= min_fixes_per_month. -/
def compute_monthly_stats (df : List VizRecord) (min_fixes_per_month : Int) :
    List MonthlyRow :=
  let monthly := monthlyRows df
  if min_fixes_per_month ≠ 0 ∧ 1 < min_fixes_per_month then
    monthly.filter (fun row => decide (min_fixes_per_month ≤ (row.total_fixes : Int)))
  else monthly

/-- The x series of the correlation plot (line 180): core_ratio. -/
def seriesX (m : List MonthlyRow) : List Rat := m.map (fun r => r.core_ratio)

/-- The y series of the correlation plot (line 180): mean_duration. -/
def seriesY (m : List MonthlyRow) : List Rat := m.map (fun r => r.mean_duration)

/-- Sum of centered products, the shared numerator of covariance and
variance (the n-1 denominators of pandas corr cancel in the ratio). -/
def covNum (xs ys : List Rat) : Rat :=
  ((xs.zip ys).map
    (fun p => (p.1 - meanTotal xs) * (p.2 - meanTotal ys))).sum

/-- Centered sum of squares of one series. -/
def varNum (xs : List Rat) : Rat := covNum xs xs

/-- Exact representation of the Pearson coefficient
r = covNum / sqrt (varNum xs * varNum ys) as the pair (numerator,
square of the denominator); none models the NaN pandas .corr returns when
either series has zero variance. -/
def pearsonRep (xs ys : List Rat) : Option (Rat × Rat) :=
  if varNum xs = 0 ∨ varNum ys = 0 then none
  else some (covNum xs ys, varNum xs * varNum ys)

/-- Average rank of x within l (ties averaged), the rank transform behind
pandas corr(method="spearman"). -/
def rankOf (l : List Rat) (x : Rat) : Rat :=
  ((l.countP (fun y => decide (y < x)) : Nat) : Rat) +
    (((l.countP (fun y => decide (y = x)) : Nat) : Rat) + 1) / 2

/-- Rank-transformed series. -/
def rankAvg (l : List Rat) : List Rat := l.map (rankOf l)

/-- Spearman coefficient representation: Pearson on the rank-transformed
series (line 181-183). -/
def spearmanRep (xs ys : List Rat) : Option (Rat × Rat) :=
  pearsonRep (rankAvg xs) (rankAvg ys)

/-- The correlation computation of plot_core_ratio_vs_mean_duration (lines
173-183): with fewer than 3 monthly points the function returns early and
no coefficient exists (outer none); otherwise the two coefficients are
computed, each possibly NaN (inner none). -/
def correlate (m : List MonthlyRow) :
    Option (Option (Rat × Rat) × Option (Rat × Rat)) :=
  if m.length < 3 then none
  else some (pearsonRep (seriesX m) (seriesY m),
             spearmanRep (seriesX m) (seriesY m))

/-- True when the correlation result carries no defined pair of
coefficients: either the early return fired or a coefficient is NaN. -/
def corrUndefined (r : Option (Option (Rat × Rat) × Option (Rat × Rat))) : Bool :=
  match r with
  | none => true
  | some (p, s) => p.isNone || s.isNone

/-! ### Helper lemmas for the summary table -/

@[simp] lemma stats_block_member_type (label : String) (g : List VizRecord) :
    (stats_block label g).member_type = label := rfl

@[simp] lemma stats_block_N (label : String) (g : List VizRecord) :
    (stats_block label g).N = g.length := rfl

@[simp] lemma roundRow_member_type (row : SummaryRow) :
    (roundRow row).member_type = row.member_type := rfl

@[simp] lemma roundRow_N (row : SummaryRow) : (roundRow row).N = row.N := rfl

lemma mem_insertLe (le : α → α → Bool) (a x : α) (l : List α) :
    x ∈ insertLe le a l ↔ x = a ∨ x ∈ l := by
  induction l with
  | nil => simp [insertLe]
  | cons b t ih =>
      by_cases h : le a b = true
      · simp [insertLe, h]
      · simp [insertLe, h, ih]
        tauto

lemma mem_sortLe (le : α → α → Bool) (x : α) (l : List α) :
    x ∈ sortLe le l ↔ x ∈ l := by
  induction l with
  | nil => simp [sortLe]
  | cons a t ih => simp [sortLe, mem_insertLe, ih]

lemma dedup_const {α : Type} [DecidableEq α] (l : List α) (a : α)
    (hne : l ≠ []) (hall : ∀ x ∈ l, x = a) : l.dedup = [a] := by
  induction l with
  | nil => exact absurd rfl hne
  | cons x t ih =>
      have hx : x = a := hall x (by simp)
      subst hx
      rcases eq_or_ne t [] with rfl | ht
      · simp
      · have hta : ∀ y ∈ t, y = x := fun y hy => hall y (by simp [hy])
        have hxt : x ∈ t := by
          rcases t with _ | ⟨y, t2⟩
          · exact absurd rfl ht
          · have hyx : y = x := hta y (by simp)
            simp [hyx]
        rw [List.dedup_cons_of_mem hxt, ih ht hta]

lemma two_label_nodup {α : Type} (d : List α) (a b : α) (hab : a ≠ b)
    (hnd : d.Nodup) (hall : ∀ x ∈ d, x = a ∨ x = b)
    (ha : a ∈ d) (hb : b ∈ d) : d = [a, b] ∨ d = [b, a] := by
  rcases d with _ | ⟨x, _ | ⟨y, _ | ⟨z, t⟩⟩⟩
  · simp at ha
  · simp at ha hb
    exact absurd (ha.trans hb.symm) hab
  · have hx := hall x (by simp)
    have hy := hall y (by simp)
    simp only [List.nodup_cons, List.mem_singleton, List.not_mem_nil] at hnd
    rcases hx with rfl | rfl <;> rcases hy with h | h <;> simp_all
  · exfalso
    simp only [List.nodup_cons, List.mem_cons] at hnd
    rcases hall x (by simp) with rfl | rfl <;>
      rcases hall y (by simp) with h | h <;>
      rcases hall z (by simp) with h2 | h2 <;>
      simp_all

lemma memberType_eq_or (r : VizRecord) :
    memberType r = coreLabel ∨ memberType r = commLabel := by
  unfold memberType
  by_cases h : r.is_core_member = true <;> simp [h]

lemma coreLabel_ne_commLabel : coreLabel ≠ commLabel := by decide

/-- C3 counterexample input: a dataset whose records are all core members. -/
def exAllCore : List VizRecord := [⟨1, 2020, 1, 10, 2, true⟩]

/-- C2 counterexample input: one core and one community record. -/
def exBoth : List VizRecord := [⟨1, 2020, 1, 10, 2, true⟩, ⟨2, 2020, 1, 20, 3, false⟩]

/-- C2 (amended): whenever both contributor classes occur in the input,
build_table1 returns exactly three rows, labelled Community Contributor,
Core Member, Overall in that order (pandas groupby emits the class rows in
ascending label order, so Community Contributor comes first), and the last
row is the Overall statistics block computed over the full input. -/
theorem build_table1_three_rows (df : List VizRecord)
    (hcore : coreLabel ∈ df.map memberType)
    (hcomm : commLabel ∈ df.map memberType) :
    (build_table1 df).map (fun row => row.member_type) =
      [commLabel, coreLabel, overallLabel] ∧
    (build_table1 df).getLast? = some (roundRow (stats_block overallLabel df)) := by
  have hall : ∀ x ∈ df.map memberType, x = commLabel ∨ x = coreLabel := by
    intro x hx
    rcases List.mem_map.mp hx with ⟨r, _, rfl⟩
    exact (memberType_eq_or r).symm
  have hd := two_label_nodup ((df.map memberType).dedup) commLabel coreLabel
    (fun h => coreLabel_ne_commLabel h.symm) ((df.map memberType).nodup_dedup)
    (fun x hx => hall x (List.mem_dedup.mp hx))
    (List.mem_dedup.mpr hcomm) (List.mem_dedup.mpr hcore)
  have hsort : sortLe strLe ((df.map memberType).dedup) = [commLabel, coreLabel] := by
    rcases hd with h | h <;> rw [h] <;> decide
  constructor
  · unfold build_table1
    rw [hsort]
    simp
  · unfold build_table1
    simp only [List.map_append, List.map_cons, List.map_nil, List.getLast?_concat]

/-- C2 counterexample: on a concrete dataset holding one core member and
one community contributor, the rows of build_table1 are NOT in the order
Core Member, Community Contributor, Overall that the claim states. -/
theorem build_table1_order_counterexample :
    ¬ ((build_table1 exBoth).map (fun row => row.member_type) =
       [coreLabel, commLabel, overallLabel]) := by decide

/-- Witness for C2 (amended) at a concrete two-record dataset. -/
theorem build_table1_three_rows_witness :
    (coreLabel ∈ exBoth.map memberType ∧ commLabel ∈ exBoth.map memberType) ∧
    (build_table1 exBoth).map (fun row => row.member_type) =
      [commLabel, coreLabel, overallLabel] ∧
    (build_table1 exBoth).getLast? =
      some (roundRow (stats_block overallLabel exBoth)) :=
  ⟨⟨by decide, by decide⟩, build_table1_three_rows exBoth (by decide) (by decide)⟩

/-- C3 (amended): on a nonempty dataset whose records are all core members,
build_table1 does not fail, but it omits the Community Contributor row
entirely: the table has exactly the two rows Core Member and Overall
(pandas groupby emits no row for an empty group). -/
theorem build_table1_all_core (df : List VizRecord) (hne : df ≠ [])
    (hcore : ∀ r ∈ df, r.is_core_member = true) :
    (build_table1 df).map (fun row => row.member_type) =
      [coreLabel, overallLabel] := by
  have hlab : (df.map memberType).dedup = [coreLabel] := by
    apply dedup_const
    · simp [hne]
    · intro x hx
      rcases List.mem_map.mp hx with ⟨r, hr, rfl⟩
      simp [memberType, hcore r hr]
  unfold build_table1
  rw [hlab]
  simp [sortLe, insertLe]

/-- C3 counterexample: on a concrete all-core dataset, build_table1
produces NO Community Contributor row at all (the claim states a
Community Contributor row with N = 0 is present). -/
theorem build_table1_all_core_counterexample :
    ¬ (∃ row ∈ build_table1 exAllCore, row.member_type = commLabel) := by decide

/-- Witness for C3 (amended) at a concrete all-core dataset. -/
theorem build_table1_all_core_witness :
    (exAllCore ≠ [] ∧ ∀ r ∈ exAllCore, r.is_core_member = true) ∧
    (build_table1 exAllCore).map (fun row => row.member_type) =
      [coreLabel, overallLabel] :=
  ⟨⟨by decide, by decide⟩, build_table1_all_core exAllCore (by decide) (by decide)⟩

/-! ### Row lookup lemmas for Table 1 -/

lemma coreLabel_ne_overallLabel : coreLabel ≠ overallLabel := by decide

lemma commLabel_ne_overallLabel : commLabel ≠ overallLabel := by decide

lemma rowN_class (df : List VizRecord) (label : String)
    (hlab : label ≠ overallLabel) :
    rowN (build_table1 df) label =
      (df.filter (fun r => memberType r = label)).length := by
  unfold rowN build_table1
  simp only [List.map_append, List.map_cons, List.map_nil, List.find?_append,
    List.find?_map, Function.comp_def, roundRow_member_type,
    stats_block_member_type]
  rcases h : (sortLe strLe (df.map memberType).dedup).find?
      (fun l => decide (l = label)) with _ | l
  · have hno : label ∉ df.map memberType := by
      intro hmem
      have : label ∈ sortLe strLe (df.map memberType).dedup :=
        (mem_sortLe _ _ _).mpr (List.mem_dedup.mpr hmem)
      have := List.find?_eq_none.mp h label this
      simp at this
    have hfilter : df.filter (fun r => memberType r = label) = [] := by
      rw [List.filter_eq_nil_iff]
      intro r hr
      simp only [decide_eq_true_eq]
      intro heq
      exact hno (List.mem_map.mpr ⟨r, hr, heq⟩)
    rw [hfilter]
    simp [hlab, Ne.symm hlab]
  · have hl : l = label := by
      have := List.find?_some h
      simpa using this
    subst hl
    simp

lemma rowN_overall (df : List VizRecord) :
    rowN (build_table1 df) overallLabel = df.length := by
  unfold rowN build_table1
  simp only [List.map_append, List.map_cons, List.map_nil, List.find?_append,
    List.find?_map, Function.comp_def, roundRow_member_type,
    stats_block_member_type]
  have h : (sortLe strLe (df.map memberType).dedup).find?
      (fun l => decide (l = overallLabel)) = none := by
    rw [List.find?_eq_none]
    intro l hl
    have hmem : l ∈ df.map memberType :=
      List.mem_dedup.mp ((mem_sortLe _ _ _).mp hl)
    rcases List.mem_map.mp hmem with ⟨r, _, rfl⟩
    rcases memberType_eq_or r with h2 | h2 <;> rw [h2] <;> simp
    · exact coreLabel_ne_overallLabel
    · exact commLabel_ne_overallLabel
  rw [h]
  simp

lemma filter_core_add_comm (df : List VizRecord) :
    (df.filter (fun r => memberType r = coreLabel)).length +
      (df.filter (fun r => memberType r = commLabel)).length = df.length := by
  induction df with
  | nil => simp
  | cons r t ih =>
      by_cases h : r.is_core_member = true
      · have h1 : memberType r = coreLabel := by simp [memberType, h]
        have h2 : decide (memberType r = coreLabel) = true := by simp [h1]
        have h3 : decide (memberType r = commLabel) = false := by
          rw [h1]
          exact decide_eq_false coreLabel_ne_commLabel
        simp only [List.filter_cons, h2, h3, if_true, if_false,
          Bool.false_eq_true, List.length_cons]
        omega
      · have h1 : memberType r = commLabel := by simp [memberType, h]
        have h2 : decide (memberType r = commLabel) = true := by simp [h1]
        have h3 : decide (memberType r = coreLabel) = false := by
          rw [h1]
          exact decide_eq_false (fun hh => coreLabel_ne_commLabel hh.symm)
        simp only [List.filter_cons, h2, h3, if_true, if_false,
          Bool.false_eq_true, List.length_cons]
        omega

/-- C6: for every nonempty dataset, the N of the Core Member row plus the N
of the Community Contributor row equals the N of the Overall row of
build_table1 (a class absent from the input has no row; its N reads as 0). -/
theorem summary_counts_partition (df : List VizRecord) (_hne : df ≠ []) :
    rowN (build_table1 df) coreLabel + rowN (build_table1 df) commLabel =
      rowN (build_table1 df) overallLabel := by
  rw [rowN_class df coreLabel coreLabel_ne_overallLabel,
    rowN_class df commLabel commLabel_ne_overallLabel, rowN_overall]
  exact filter_core_add_comm df

/-- Witness for C6 at a concrete two-record dataset. -/
theorem summary_counts_partition_witness :
    exBoth ≠ [] ∧
    rowN (build_table1 exBoth) coreLabel + rowN (build_table1 exBoth) commLabel =
      rowN (build_table1 exBoth) overallLabel :=
  ⟨by decide, summary_counts_partition exBoth (by decide)⟩

/-! ### Monthly aggregation and correlation claims -/

/-- C7 scenario input: 12 months of 2020, five records in each month. -/
def exC7 : List VizRecord :=
  ((List.range 12).map (fun m =>
    (List.range 5).map (fun i =>
      ⟨(1 + 5 * m + i : Int), 2020, m + 1, 1, 1, false⟩))).flatten

/-- C7: compute_monthly_stats drops exactly the months whose total_fixes is
below the threshold, and only when the threshold exceeds 1: a row survives
iff it is a monthly row and (threshold <= 1 or its total_fixes reaches the
threshold); a threshold of 0 disables filtering entirely; and on 12 months
of 5 fixes each with threshold 10 the result is empty. -/
theorem monthly_threshold_filter :
    (∀ (df : List VizRecord) (m : Int) (row : MonthlyRow),
        row ∈ compute_monthly_stats df m ↔
          (row ∈ monthlyRows df ∧ (m ≤ 1 ∨ m ≤ (row.total_fixes : Int)))) ∧
    (∀ df : List VizRecord, compute_monthly_stats df 0 = monthlyRows df) ∧
    compute_monthly_stats exC7 10 = [] := by
  refine ⟨?_, ?_, ?_⟩
  · intro df m row
    unfold compute_monthly_stats
    by_cases hm : m ≠ 0 ∧ 1 < m
    · rw [if_pos hm]
      simp only [List.mem_filter, decide_eq_true_eq]
      constructor
      · rintro ⟨h1, h2⟩
        exact ⟨h1, Or.inr h2⟩
      · rintro ⟨h1, h2⟩
        refine ⟨h1, ?_⟩
        rcases h2 with h | h
        · exact absurd hm.2 (by omega)
        · exact h
    · rw [if_neg hm]
      have hm1 : m ≤ 1 := by
        rcases not_and_or.mp hm with h | h
        · omega
        · omega
      simp [hm1]
  · intro df
    unfold compute_monthly_stats
    rw [if_neg]
    simp
  · decide

/-- C8 witness input: only two monthly points. -/
def exTwoMonths : List MonthlyRow :=
  [⟨(2020, 1), 5, 2, 3, 3, 1, 2/5⟩, ⟨(2020, 2), 5, 3, 4, 4, 1, 3/5⟩]

/-- C8: the correlation computation yields no defined pair of coefficients
whenever fewer than 3 monthly points are available (the early return at
line 175) or either series has zero variance (pandas .corr returns NaN,
modelled by the inner none). -/
theorem correlate_undefined (m : List MonthlyRow)
    (h : m.length < 3 ∨ varNum (seriesX m) = 0 ∨ varNum (seriesY m) = 0) :
    corrUndefined (correlate m) = true := by
  unfold correlate
  by_cases hlen : m.length < 3
  · rw [if_pos hlen]
    rfl
  · rw [if_neg hlen]
    rcases h with h | h | h
    · exact absurd h hlen
    · simp [corrUndefined, pearsonRep, h]
    · simp [corrUndefined, pearsonRep, h]

/-- Witness for C8 at a concrete two-point input. -/
theorem correlate_undefined_witness :
    exTwoMonths.length < 3 ∧ corrUndefined (correlate exTwoMonths) = true :=
  ⟨by decide, correlate_undefined exTwoMonths (Or.inl (by decide))⟩

/-- C9 input: three monthly points with core_ratio 0.1, 0.5, 0.9 and
mean_duration 10, 5, 1. -/
def exThreeMonths : List MonthlyRow :=
  [⟨(2020, 1), 10, 1, 10, 10, 2, 1/10⟩,
   ⟨(2020, 2), 10, 5, 5, 5, 2, 1/2⟩,
   ⟨(2020, 3), 10, 9, 1, 1, 2, 9/10⟩]

/-- C9: on the three-point input with core_ratio series 0.1, 0.5, 0.9 and
mean_duration series 10, 5, 1, the Pearson coefficient
covNum / sqrt (varNum X * varNum Y) is strictly below -0.9: for every real
s >= 0 with s^2 = varNum X * varNum Y (i.e. s is that square root),
covNum / s < -9/10. -/
theorem pearson_strongly_negative (s : Real) (hs0 : 0 ≤ s)
    (hs : s ^ 2 = ((varNum (seriesX exThreeMonths) *
      varNum (seriesY exThreeMonths) : Rat) : Real)) :
    ((covNum (seriesX exThreeMonths) (seriesY exThreeMonths) : Rat) : Real) / s
      < -(9/10) := by
  have hc : covNum (seriesX exThreeMonths) (seriesY exThreeMonths) = -18/5 := by
    norm_num [covNum, seriesX, seriesY, exThreeMonths, meanTotal, List.zip]
  have hv : varNum (seriesX exThreeMonths) * varNum (seriesY exThreeMonths)
      = 976/75 := by
    norm_num [varNum, covNum, seriesX, seriesY, exThreeMonths, meanTotal,
      List.zip]
  rw [hc]
  rw [hv] at hs
  have hs2 : s ^ 2 = 976/75 := by
    rw [hs]
    norm_num
  have hpos : 0 < s := by
    rcases eq_or_lt_of_le hs0 with h | h
    · exfalso
      rw [← h] at hs2
      norm_num at hs2
    · exact h
  have hlt : s < 4 := by nlinarith
  have hcast : ((-18/5 : Rat) : Real) = -(18/5) := by norm_num
  rw [hcast, div_lt_iff₀ hpos]
  nlinarith

/-- Witness for C9: the positive square root of varNum X * varNum Y
satisfies the hypotheses of the theorem. -/
theorem pearson_strongly_negative_witness :
    (0 : Real) ≤ Real.sqrt (976/75) ∧
    ((covNum (seriesX exThreeMonths) (seriesY exThreeMonths) : Rat) : Real) /
      Real.sqrt (976/75) < -(9/10) := by
  have h0 : (0 : Real) ≤ 976/75 := by norm_num
  have hv : varNum (seriesX exThreeMonths) * varNum (seriesY exThreeMonths)
      = 976/75 := by
    norm_num [varNum, covNum, seriesX, seriesY, exThreeMonths, meanTotal,
      List.zip]
  have hsq : Real.sqrt (976/75) ^ 2 = ((varNum (seriesX exThreeMonths) *
      varNum (seriesY exThreeMonths) : Rat) : Real) := by
    rw [Real.sq_sqrt h0, hv]
    norm_num
  exact ⟨Real.sqrt_nonneg _,
    pearson_strongly_negative (Real.sqrt (976/75)) (Real.sqrt_nonneg _) hsq⟩
